import Mathlib

/-!
Verification of the mkconf change-monitoring and change-diffing engine.

The Go source is shallowly embedded: Go `map[string]interface\x7b\x7d` values
become association lists of `Value`s, `reflect.DeepEqual` becomes the
structural comparison `Value.beq`, the file system and the pluggable format
readers (external collaborators) become explicit oracle functions passed to
each operation, channel sends become `Emission` events collected in a list,
and a run-time panic (nil function call / nil map dereference) becomes the
`Outcome.panicked` result.
-/

namespace Mkconf

/-- Model of a Go `interface\x7b\x7d` value as decoded from a configuration
file: null, scalars, sequences and nested string-keyed mappings.  A mapping is
an association list (Go maps cannot contain a duplicate key, which reappears
below as `Nodup` hypotheses on the key lists). -/
inductive Value where
  | vNull : Value
  | vBool (b : Bool) : Value
  | vInt (n : Int) : Value
  | vStr (s : String) : Value
  | vList (xs : List Value) : Value
  | vMap (fields : List (String × Value)) : Value
deriving Repr

mutual

/-- Model of `reflect.DeepEqual` on decoded configuration values: recursive
structural equality across nested mappings, sequences and scalars. -/
def Value.beq : Value → Value → Bool
  | .vNull, .vNull => true
  | .vBool a, .vBool b => a == b
  | .vInt a, .vInt b => a == b
  | .vStr a, .vStr b => a == b
  | .vList xs, .vList ys => Value.beqList xs ys
  | .vMap xs, .vMap ys => Value.beqMap xs ys
  | _, _ => false

def Value.beqList : List Value → List Value → Bool
  | [], [] => true
  | x :: xs, y :: ys => Value.beq x y && Value.beqList xs ys
  | _, _ => false

def Value.beqMap : List (String × Value) → List (String × Value) → Bool
  | [], [] => true
  | (k, x) :: xs, (l, y) :: ys => k == l && Value.beq x y && Value.beqMap xs ys
  | _, _ => false

end

mutual

theorem Value.beq_refl : (v : Value) → Value.beq v v = true
  | .vNull => rfl
  | .vBool b => by simp [Value.beq]
  | .vInt n => by simp [Value.beq]
  | .vStr s => by simp [Value.beq]
  | .vList xs => by simp [Value.beq, Value.beqList_refl xs]
  | .vMap xs => by simp [Value.beq, Value.beqMap_refl xs]

theorem Value.beqList_refl : (xs : List Value) → Value.beqList xs xs = true
  | [] => rfl
  | x :: xs => by simp [Value.beqList, Value.beq_refl x, Value.beqList_refl xs]

theorem Value.beqMap_refl : (xs : List (String × Value)) → Value.beqMap xs xs = true
  | [] => rfl
  | (k, x) :: xs => by simp [Value.beqMap, Value.beq_refl x, Value.beqMap_refl xs]

end

/-- Go map indexing `m[key]` on an association list: the value bound to the
first occurrence of the key, if any. -/
def alistGet {α : Type} : List (String × α) → String → Option α
  | [], _ => none
  | (k, v) :: rest, key => if k = key then some v else alistGet rest key

/-- Go map assignment `m[key] = v` on an association list: replace the
binding if the key is present, append it otherwise. -/
def alistSet {α : Type} : List (String × α) → String → α → List (String × α)
  | [], key, v => [(key, v)]
  | (k, w) :: rest, key, v =>
    if k = key then (key, v) :: rest else (k, w) :: alistSet rest key v

theorem alistGet_set_self {α : Type} :
    ∀ (l : List (String × α)) (k : String) (v : α),
      alistGet (alistSet l k v) k = some v
  | [], k, v => by simp [alistGet, alistSet]
  | (k1, w) :: rest, k, v => by
    by_cases hk : k1 = k
    · simp [alistGet, alistSet, hk]
    · simp [alistGet, alistSet, hk, alistGet_set_self rest k v]

theorem alistGet_set_ne {α : Type} :
    ∀ (l : List (String × α)) (k k2 : String) (v : α), k ≠ k2 →
      alistGet (alistSet l k v) k2 = alistGet l k2
  | [], k, k2, v, h => by simp [alistGet, alistSet, h]
  | (k1, w) :: rest, k, k2, v, h => by
    by_cases hk : k1 = k
    · simp [alistGet, alistSet, hk, h]
    · simp only [alistSet, if_neg hk, alistGet]
      by_cases hk2 : k1 = k2
      · simp [hk2]
      · simp [hk2, alistGet_set_ne rest k k2 v h]

theorem alistGet_of_mem {α : Type} :
    ∀ (l : List (String × α)), (l.map Prod.fst).Nodup →
      ∀ kv : String × α, kv ∈ l → alistGet l kv.1 = some kv.2
  | [], _, kv, hkv => by cases hkv
  | (k1, v1) :: rest, hnd, kv, hkv => by
    have hnd' : (k1 :: rest.map Prod.fst).Nodup := by
      simp only [List.map_cons] at hnd; exact hnd
    rcases List.mem_cons.mp hkv with h | h
    · subst h; simp [alistGet]
    · have hk1 : k1 ∉ rest.map Prod.fst := (List.nodup_cons.mp hnd').1
      have hne : k1 ≠ kv.1 := by
        intro he
        exact hk1 (he ▸ List.mem_map_of_mem Prod.fst h)
      have hrest : (rest.map Prod.fst).Nodup := (List.nodup_cons.mp hnd').2
      simp [alistGet, hne, alistGet_of_mem rest hrest kv h]

/-- Mirrors the Go `ConfigChangeLog` struct: one field-level change record.
Go `nil` in the `OldValue`/`NewValue` slots is modelled as `Value.vNull`;
the `time.Now()` stamp is modelled by the `now` parameter threaded through
the differ. -/
structure ConfigChangeLog where
  configName : String
  fieldName : String
  oldValue : Value
  newValue : Value
  timestamp : Nat
deriving Repr

/-- One iteration of the first `compareFields` pass (over `oldMap`): for a
key of the old mapping, emit a changed record when the key survives with a
not-deeply-equal value, a removal record when the key is gone, nothing when
the value is unchanged. -/
def oldKeyRecord (configName : String) (now : Nat) (newMap : List (String × Value))
    (kv : String × Value) : Option ConfigChangeLog :=
  match alistGet newMap kv.1 with
  | some newValue =>
    if Value.beq kv.2 newValue then none
    else some { configName := configName, fieldName := kv.1, oldValue := kv.2,
                newValue := newValue, timestamp := now }
  | none =>
    some { configName := configName, fieldName := kv.1, oldValue := kv.2,
           newValue := Value.vNull, timestamp := now }

/-- One iteration of the second `compareFields` pass (over `newMap`): emit an
addition record for a key absent from the old mapping. -/
def newKeyRecord (configName : String) (now : Nat) (oldMap : List (String × Value))
    (kv : String × Value) : Option ConfigChangeLog :=
  match alistGet oldMap kv.1 with
  | some _ => none
  | none =>
    some { configName := configName, fieldName := kv.1, oldValue := Value.vNull,
           newValue := kv.2, timestamp := now }

/-- Mirrors Go `compareFields`: type-assert both inputs to mappings (the old
one is checked first), then walk the old mapping emitting changed/removed
records and the new mapping emitting added records, appending to the caller's
`changes` slice.  `configFullName` is accepted and unused, as in the source. -/
def compareFields (configName configFullName : String) (oldConfig newConfig : Value)
    (now : Nat) (changes : List ConfigChangeLog) :
    Except String (List ConfigChangeLog) :=
  match oldConfig with
  | .vMap oldMap =>
    match newConfig with
    | .vMap newMap =>
      .ok (changes ++ oldMap.filterMap (oldKeyRecord configName now newMap)
                   ++ newMap.filterMap (newKeyRecord configName now oldMap))
    | _ => .error ("monitoring changes: error while check changes " ++ configName
        ++ " : newConfig is not of type map[string]interface\x7b\x7d")
  | _ => .error ("monitoring changes: error while check changes " ++ configName
      ++ " : oldConfig is not of type map[string]interface\x7b\x7d")

/-! ### The hashing probe

`calculateFileHash` reads a file and returns the hex encoding of the MD5
digest of its bytes.  MD5 is implemented below over `Nat` with explicit
`% 2 ^ 32` reductions; bytes are `Nat`s below 256. -/

/-- 32-bit left rotation, Go `bits.RotateLeft32`-style, as used inside MD5. -/
def rotl32 (x s : Nat) : Nat :=
  ((x <<< s) ||| (x >>> (32 - s))) % 4294967296

/-- The 64 MD5 round constants (floor(abs(sin(i + 1)) * 2^32)). -/
def md5K : List Nat :=
  [0xd76aa478, 0xe8c7b756, 0x242070db, 0xc1bdceee,
   0xf57c0faf, 0x4787c62a, 0xa8304613, 0xfd469501,
   0x698098d8, 0x8b44f7af, 0xffff5bb1, 0x895cd7be,
   0x6b901122, 0xfd987193, 0xa679438e, 0x49b40821,
   0xf61e2562, 0xc040b340, 0x265e5a51, 0xe9b6c7aa,
   0xd62f105d, 0x02441453, 0xd8a1e681, 0xe7d3fbc8,
   0x21e1cde6, 0xc33707d6, 0xf4d50d87, 0x455a14ed,
   0xa9e3e905, 0xfcefa3f8, 0x676f02d9, 0x8d2a4c8a,
   0xfffa3942, 0x8771f681, 0x6d9d6122, 0xfde5380c,
   0xa4beea44, 0x4bdecfa9, 0xf6bb4b60, 0xbebfbc70,
   0x289b7ec6, 0xeaa127fa, 0xd4ef3085, 0x04881d05,
   0xd9d4d039, 0xe6db99e5, 0x1fa27cf8, 0xc4ac5665,
   0xf4292244, 0x432aff97, 0xab9423a7, 0xfc93a039,
   0x655b59c3, 0x8f0ccc92, 0xffeff47d, 0x85845dd1,
   0x6fa87e4f, 0xfe2ce6e0, 0xa3014314, 0x4e0811a1,
   0xf7537e82, 0xbd3af235, 0x2ad7d2bb, 0xeb86d391]

/-- The 64 MD5 per-round shift amounts. -/
def md5S : List Nat :=
  [7, 12, 17, 22, 7, 12, 17, 22, 7, 12, 17, 22, 7, 12, 17, 22,
   5, 9, 14, 20, 5, 9, 14, 20, 5, 9, 14, 20, 5, 9, 14, 20,
   4, 11, 16, 23, 4, 11, 16, 23, 4, 11, 16, 23, 4, 11, 16, 23,
   6, 10, 15, 21, 6, 10, 15, 21, 6, 10, 15, 21, 6, 10, 15, 21]

/-- Little-endian byte decomposition of a number into `n` bytes. -/
def leBytes : Nat → Nat → List Nat
  | 0, _ => []
  | n + 1, x => (x % 256) :: leBytes n (x / 256)

/-- Group a byte list into little-endian 32-bit words. -/
def toWords : List Nat → List Nat
  | b0 :: b1 :: b2 :: b3 :: rest =>
    (b0 + 256 * b1 + 65536 * b2 + 16777216 * b3) :: toWords rest
  | _ => []

/-- MD5 padding: a 0x80 byte, zeros up to 56 mod 64, then the bit length as
eight little-endian bytes. -/
def md5Pad (msg : List Nat) : List Nat :=
  let zeros := (56 + 64 - ((msg.length + 1) % 64)) % 64
  msg ++ [0x80] ++ List.replicate zeros 0 ++ leBytes 8 ((msg.length * 8) % 18446744073709551616)

/-- Split the padded message's word list into 16-word chunks. -/
def splitChunks : List Nat → List (List Nat)
  | [] => []
  | w :: ws => ((w :: ws).take 16) :: splitChunks ((w :: ws).drop 16)
termination_by l => l.length
decreasing_by simp [List.drop]; omega

/-- One MD5 round: mixes round `i` into the running `(a, b, c, d)` state
using message words `M`. -/
def md5Round (M : List Nat) (st : Nat × Nat × Nat × Nat) (i : Nat) :
    Nat × Nat × Nat × Nat :=
  let (a, b, c, d) := st
  let fg : Nat × Nat :=
    if i < 16 then ((b &&& c) ||| ((b ^^^ 0xffffffff) &&& d), i)
    else if i < 32 then ((d &&& b) ||| ((d ^^^ 0xffffffff) &&& c), (5 * i + 1) % 16)
    else if i < 48 then (b ^^^ c ^^^ d, (3 * i + 5) % 16)
    else (c ^^^ (b ||| (d ^^^ 0xffffffff)), (7 * i) % 16)
  let f2 := (fg.1 + a + md5K.getD i 0 + M.getD fg.2 0) % 4294967296
  (d, (b + rotl32 f2 (md5S.getD i 0)) % 4294967296, b, c)

/-- Process one 16-word chunk: run the 64 rounds and add the result into the
running state modulo 2^32. -/
def md5Chunk (st : Nat × Nat × Nat × Nat) (M : List Nat) : Nat × Nat × Nat × Nat :=
  let r := (List.range 64).foldl (md5Round M) st
  ((st.1 + r.1) % 4294967296, (st.2.1 + r.2.1) % 4294967296,
   (st.2.2.1 + r.2.2.1) % 4294967296, (st.2.2.2 + r.2.2.2) % 4294967296)

/-- MD5 digest of a byte list, as its 16 output bytes. -/
def md5 (msg : List Nat) : List Nat :=
  let chunks := splitChunks (toWords (md5Pad msg))
  let r := chunks.foldl md5Chunk (0x67452301, 0xefcdab89, 0x98badcfe, 0x10325476)
  leBytes 4 r.1 ++ leBytes 4 r.2.1 ++ leBytes 4 r.2.2.1 ++ leBytes 4 r.2.2.2

/-- Lower-case hex digit, as produced by Go `encoding/hex`. -/
def hexDigit (n : Nat) : Char :=
  if n < 10 then Char.ofNat (48 + n) else Char.ofNat (87 + n)

/-- Hex encoding of a byte list, Go `hex.EncodeToString`. -/
def hexEncodeToString (bs : List Nat) : String :=
  String.join (bs.map (fun b => String.mk [hexDigit (b / 16), hexDigit (b % 16)]))

/-- Mirrors Go `(*ConfigSettings).calculateFileHash`: read the whole file
(`readFile` is the file-system oracle, returning the byte content or an I/O
error), feed the content to MD5 and hex-encode the sum.  The `ConfigSettings`
receiver is unused by the source body and therefore absent here. -/
def calculateFileHash (readFile : String → Except String (List Nat))
    (filename : String) : Except String String :=
  match readFile filename with
  | .error e => .error e
  | .ok fileContent => .ok (hexEncodeToString (md5 fileContent))

/-! ### Registry data model

`ConfigSettings`, `ConfigList` and `ConfigManager`, with the concurrency
handles reduced to what the claims observe: `cancel` is `some ()` exactly
when the Go `context.CancelFunc` is non-nil (calling a nil one panics), and
channel sends are collected as `Emission` events. -/

/-- The pluggable format reader selected for an entry (external collaborator;
only its identity matters to the core). -/
inductive ReaderKind where
  | json | xml | yaml | toml | ini
deriving DecidableEq, Repr

/-- Go `strings.ToLower` restricted to ASCII, which covers every format
tag; defined structurally so that concrete tags evaluate. -/
def toLowerAscii (s : String) : String :=
  String.mk (s.data.map (fun c =>
    if 65 ≤ c.toNat ∧ c.toNat ≤ 90 then Char.ofNat (c.toNat + 32) else c))

/-- Mirrors Go `(*ConfigSettings).checkReader`: map a (case-insensitive)
format tag to a reader, `none` for an unrecognized tag. -/
def checkReader (configType : String) : Option ReaderKind :=
  let t := toLowerAscii configType
  if t = ".json" ∨ t = ".mk.json" then some .json
  else if t = ".xml" ∨ t = ".mk.xml" then some .xml
  else if t = ".yaml" ∨ t = ".yml" ∨ t = ".mk.yaml" ∨ t = ".mk.yml" then some .yaml
  else if t = ".toml" ∨ t = ".mk.toml" then some .toml
  else if t = ".ini" ∨ t = ".mk.ini" then some .ini
  else none

/-- Mirrors the Go `ConfigSettings` struct (the mutex, context, wait group
and channel values themselves are not data; `cancel` records whether the
`CancelFunc` is non-nil). -/
structure ConfigSettings where
  configName : String
  configPath : String
  configFullPath : String
  configType : String
  Reader : Option ReaderKind
  checkSec : Nat
  repeatSec : Nat
  lastConfigHash : String
  configMAP : List (String × Value)
  config : Value
  cancel : Option Unit
  enableChangeValidation : Bool
  enableChangeTracking : Bool
deriving Repr

/-- Mirrors the Go `ConfigList` struct: the settings map and the change-log
map (their mutexes guard them; lock-protected sections execute atomically
here). -/
structure ConfigListState where
  settings : List (String × ConfigSettings)
  changeLogs : List (String × List ConfigChangeLog)
deriving Repr

/-- A send on one of an entry's two notification channels. -/
inductive Emission where
  | changed
  | tracking
deriving DecidableEq, Repr

/-- Result of a call that may terminate normally (with a Go `error` or nil)
or panic (nil function call / nil map dereference). -/
inductive Outcome where
  | panicked
  | ret (err : Option String)
deriving DecidableEq, Repr

/-- Go `filepath.Join` of a directory and a file name (path cleaning is not
modelled; no claim depends on it). -/
def joinPath (dir file : String) : String := dir ++ "/" ++ file

/-- Mirrors Go `(*ConfigList).logChanges`: under the log mutex, append the
records to the entry's change log, then send on the entry's tracking channel
(the send is returned as an `Emission.tracking` event). -/
def ConfigList.logChanges (st : ConfigListState) (configName : String)
    (changes : List ConfigChangeLog) : ConfigListState × List Emission :=
  ({ st with changeLogs := (alistSet st.changeLogs configName
      ((alistGet st.changeLogs configName).getD [] ++ changes)) },
   [Emission.tracking])

/-- Mirrors Go `(*ConfigList).GetLogChanges`: the accumulated log for the
name (indexing a Go map with a missing key yields the empty slice). -/
def ConfigList.GetLogChanges (st : ConfigListState) (configName : String) :
    List ConfigChangeLog :=
  (alistGet st.changeLogs configName).getD []

/-- Mirrors Go `(*ConfigList).StartChangeMonitoring` (part 010 variant) up to
the spawned polling goroutine, whose per-tick body is
`ConfigList.checkConfigChanges` below: unknown names fail; otherwise
change validation is enabled and a fresh cancellable context is allocated
(`cancel := some ()`). -/
def ConfigList.StartChangeMonitoring (st : ConfigListState) (configName : String) :
    ConfigListState × Option String :=
  match alistGet st.settings configName with
  | none => (st, some ("config not found: " ++ configName))
  | some s =>
    ({ st with settings := (alistSet st.settings configName
        { s with enableChangeValidation := true, cancel := some () }) },
     none)

/-- Mirrors Go `(*ConfigList).StopChangeMonitoring`: a no-op for an unknown
name; otherwise it calls `settings.cancel()` — a panic when that function is
nil, i.e. when the monitor was never started — waits for the goroutine, and
disables change validation. -/
def ConfigList.StopChangeMonitoring (st : ConfigListState) (configName : String) :
    ConfigListState × Outcome :=
  match alistGet st.settings configName with
  | none => (st, .ret none)
  | some s =>
    match s.cancel with
    | none => (st, .panicked)
    | some _ =>
      ({ st with settings := (alistSet st.settings configName
          { s with enableChangeValidation := false }) },
       .ret none)

/-- Mirrors Go `(*ConfigList).LoadConfig`: select a reader from the format
tag when none is set (failing on an unrecognized tag), read the file into the
target (`readRes` is the reader oracle's result), store the target.  A
missing name dereferences a nil `*ConfigSettings` in the source. -/
def ConfigList.LoadConfig (readRes : Except String Value) (st : ConfigListState)
    (configName : String) (v : Value) : ConfigListState × Outcome :=
  match alistGet st.settings configName with
  | none => (st, .panicked)
  | some s =>
    let withReader : Option ConfigSettings :=
      match s.Reader with
      | some _ => some s
      | none =>
        match checkReader s.configType with
        | none => none
        | some r => some { s with Reader := some r }
    match withReader with
    | none => (st, .ret (some (configName
        ++ " error while setting reader type - check your config file type")))
    | some s1 =>
      match readRes with
      | .error e =>
        ({ st with settings := alistSet st.settings configName s1 },
         .ret (some ("load config " ++ configName ++ ": error while read config: " ++ e)))
      | .ok _ =>
        ({ st with settings := alistSet st.settings configName { s1 with config := v } },
         .ret none)

/-- Mirrors Go `(*ConfigList).UpdateConfig` (part 002 variant): under the
registry-wide lock, fail on an unknown name or an unset reader, stop the
monitor (panicking if it was never started), write the new value through the
Format Writer (`writeRes` is the writer oracle's error result), reload the
typed target from storage, and restart the monitor on every return path (the
deferred `StartChangeMonitoring`). -/
def ConfigList.UpdateConfig (writeRes : Option String) (readRes : Except String Value)
    (st : ConfigListState) (configName : String) (v : Value) :
    ConfigListState × Outcome :=
  match alistGet st.settings configName with
  | none => (st, .ret (some ("config with name " ++ configName ++ " not found")))
  | some settings =>
    match settings.Reader with
    | none => (st, .ret (some ("reader not set for config " ++ configName)))
    | some _ =>
      match ConfigList.StopChangeMonitoring st configName with
      | (_, .panicked) => (st, .panicked)
      | (st1, .ret _) =>
        match writeRes with
        | some e =>
          ((ConfigList.StartChangeMonitoring st1 configName).1,
           .ret (some ("update config " ++ configName ++ ": " ++ e)))
        | none =>
          match ConfigList.LoadConfig readRes st1 configName settings.config with
          | (st2, .panicked) => (st2, .panicked)
          | (st2, .ret (some e)) =>
            ((ConfigList.StartChangeMonitoring st2 configName).1,
             .ret (some ("reload config " ++ configName ++ ": " ++ e)))
          | (st2, .ret none) =>
            ((ConfigList.StartChangeMonitoring st2 configName).1, .ret none)

/-- Mirrors Go `(*ConfigSettings).convertToMap`: dispatch on the entry's
reader (`none` is the `default:` unsupported-reader error) and read the file
into an untyped mapping; `parse` is the format-reader oracle. -/
def ConfigSettings.convertToMap
    (parse : String → ReaderKind → Except String (List (String × Value)))
    (s : ConfigSettings) (fullPath : String) :
    Except String (List (String × Value)) :=
  match s.Reader with
  | none => .error "unsupported ConfigReader type"
  | some r =>
    match parse fullPath r with
    | .ok m => .ok m
    | .error e => .error ("error converting config to map: " ++ e)

/-- Mirrors Go `(*ConfigSettings).defineHash`: compute and store the file's
fingerprint (on failure the hash field holds the returned empty string and
the error is reported), then capture the initial untyped snapshot — with the
`convertToMap` error explicitly discarded (`configMap, _ := ...`), so a
failed conversion silently leaves a nil snapshot — and store the target. -/
def ConfigSettings.defineHash (readFile : String → Except String (List Nat))
    (parse : String → ReaderKind → Except String (List (String × Value)))
    (s : ConfigSettings) (v : Value) : ConfigSettings × Option String :=
  match calculateFileHash readFile s.configFullPath with
  | .error e => ({ s with lastConfigHash := "" }, some ("error calculate hash: " ++ e))
  | .ok h =>
    let s1 := { s with lastConfigHash := h }
    let configMap :=
      match ConfigSettings.convertToMap parse s1 s1.configFullPath with
      | .ok m => m
      | .error _ => []
    ({ s1 with config := v, configMAP := configMap }, none)

/-- Mirrors Go `(*ConfigList).AddConfigList`: build fresh settings (change
flags off, cadence 1/10, nil cancel), reset the whole change-log map to a
fresh empty map, insert the entry, resolve the full path, select the reader
from the tag, and run `defineHash`; the entry (with any partial `defineHash`
mutations) stays in the map even when an error is returned. -/
def ConfigList.AddConfigList (readFile : String → Except String (List Nat))
    (parse : String → ReaderKind → Except String (List (String × Value)))
    (st : ConfigListState) (configName configPath configType : String) (v : Value) :
    ConfigListState × Option String :=
  let settings : ConfigSettings :=
    { configName := configName, configPath := configPath, configFullPath := "",
      configType := configType, Reader := none, checkSec := 1, repeatSec := 10,
      lastConfigHash := "", configMAP := [], config := Value.vNull, cancel := none,
      enableChangeValidation := false, enableChangeTracking := false }
  let fullPath := joinPath configPath (configName ++ configType)
  let s1 := { settings with configPath := configPath,
                            configFullPath := fullPath,
                            Reader := checkReader configType }
  let r := ConfigSettings.defineHash readFile parse s1 v
  let st2 : ConfigListState :=
    { settings := alistSet st.settings configName r.1, changeLogs := [] }
  match r.2 with
  | some e => (st2, some ("mkconf: error add new config " ++ configName ++ ": " ++ e))
  | none => (st2, none)

/-- Mirrors the Go `ConfigManager` struct (callback maps omitted; no claim
touches them). -/
structure ConfigManager where
  configList : ConfigListState
  configs : List (String × Value)
deriving Repr

/-- Mirrors Go `(*ConfigManager).AddConfig`: fail on a duplicate name,
delegate to `AddConfigList`, and register the target interface on success. -/
def ConfigManager.AddConfig (readFile : String → Except String (List Nat))
    (parse : String → ReaderKind → Except String (List (String × Value)))
    (cm : ConfigManager) (configName configPath configType : String) (v : Value) :
    ConfigManager × Option String :=
  match alistGet cm.configs configName with
  | some _ => (cm, some ("config with name " ++ configName ++ " already exists"))
  | none =>
    match ConfigList.AddConfigList readFile parse cm.configList
        configName configPath configType v with
    | (st1, some e) => ({ cm with configList := st1 }, some e)
    | (st1, none) =>
      ({ configList := st1, configs := alistSet cm.configs configName v }, none)

/-- The per-tick oracle results: the hashing probe, the typed read, the
untyped-mapping read, the winner of the final two-way `select`, and the
wall-clock stamp for this tick's records. -/
structure TickEnv where
  hashResult : Except String String
  readResult : Except String Value
  convertResult : Except String (List (String × Value))
  selectChanged : Bool
  now : Nat

/-- Mirrors Go `(*ConfigList).checkConfigChanges` (part 010 variant), the
body of one poll tick: skip when validation is off; compute the fingerprint
(propagating probe errors); on a fingerprint mismatch, under the entry's
lock, re-read the typed target (propagating read errors); with tracking on,
re-read the untyped mapping, diff it against the stored snapshot (a failed
conversion leaves a nil mapping, so the diff removes every stored key), log
the records via `logChanges`, and only then propagate the conversion error;
on success replace target, snapshot and fingerprint together and perform the
final `select` send on the changed or tracking channel. -/
def ConfigList.checkConfigChanges (env : TickEnv) (st : ConfigListState)
    (configName : String) : ConfigListState × List Emission × Outcome :=
  match alistGet st.settings configName with
  | none => (st, [], .panicked)
  | some s =>
    if s.enableChangeValidation then
      match env.hashResult with
      | .error e => (st, [], .ret (some e))
      | .ok hash =>
        if hash = s.lastConfigHash then (st, [], .ret none)
        else
          match env.readResult with
          | .error e => (st, [], .ret (some e))
          | .ok newTyped =>
            if s.enableChangeTracking then
              let configMap :=
                match env.convertResult with
                | .ok m => m
                | .error _ => []
              let changes :=
                match compareFields configName (s.configName ++ s.configType)
                    (.vMap s.configMAP) (.vMap configMap) env.now [] with
                | .ok cs => cs
                | .error _ => []
              let r := ConfigList.logChanges st configName changes
              match env.convertResult with
              | .error _ =>
                (r.1, r.2,
                 .ret (some "monitoring: error v is not of type map[string]interface\x7b\x7d"))
              | .ok _ =>
                ({ r.1 with settings := (alistSet r.1.settings configName
                    { s with config := newTyped, configMAP := configMap,
                             lastConfigHash := hash }) },
                 r.2 ++ [if env.selectChanged then Emission.changed else Emission.tracking],
                 .ret none)
            else
              ({ st with settings := (alistSet st.settings configName
                  { s with config := newTyped, configMAP := [],
                           lastConfigHash := hash }) },
               [if env.selectChanged then Emission.changed else Emission.tracking],
               .ret none)
    else (st, [], .ret none)

/-- Mirrors the `(*ConfigManager).checkConfigChanges` variant in changes.go:
identical control flow to the `ConfigList` variant, except that the final
settings update stores the new target and new snapshot without ever writing
`lastConfigHash`. -/
def ConfigManager.checkConfigChanges (env : TickEnv) (st : ConfigListState)
    (configName : String) : ConfigListState × List Emission × Outcome :=
  match alistGet st.settings configName with
  | none => (st, [], .panicked)
  | some s =>
    if s.enableChangeValidation then
      match env.hashResult with
      | .error e => (st, [], .ret (some e))
      | .ok hash =>
        if hash = s.lastConfigHash then (st, [], .ret none)
        else
          match env.readResult with
          | .error e => (st, [], .ret (some e))
          | .ok newTyped =>
            if s.enableChangeTracking then
              let configMap :=
                match env.convertResult with
                | .ok m => m
                | .error _ => []
              let changes :=
                match compareFields configName (s.configName ++ s.configType)
                    (.vMap s.configMAP) (.vMap configMap) env.now [] with
                | .ok cs => cs
                | .error _ => []
              let r := ConfigList.logChanges st configName changes
              match env.convertResult with
              | .error _ =>
                (r.1, r.2,
                 .ret (some "monitoring: error v is not of type map[string]interface\x7b\x7d"))
              | .ok _ =>
                ({ r.1 with settings := (alistSet r.1.settings configName
                    { s with config := newTyped, configMAP := configMap }) },
                 r.2 ++ [if env.selectChanged then Emission.changed else Emission.tracking],
                 .ret none)
            else
              ({ st with settings := (alistSet st.settings configName
                  { s with config := newTyped, configMAP := [] }) },
               [if env.selectChanged then Emission.changed else Emission.tracking],
               .ret none)
    else (st, [], .ret none)

/-- A sample registered entry with a started monitor (reader set, non-nil
cancel handle), used to instantiate the theorems below at concrete inputs. -/
def sampleEntry : ConfigSettings :=
  { configName := "app", configPath := "/etc", configFullPath := "/etc/app.json",
    configType := ".json", Reader := some .json, checkSec := 1, repeatSec := 10,
    lastConfigHash := "h", configMAP := [], config := Value.vNull,
    cancel := some (), enableChangeValidation := true,
    enableChangeTracking := false }

/-- A one-entry registry holding `sampleEntry` under the name "app". -/
def sampleState : ConfigListState :=
  { settings := [("app", sampleEntry)], changeLogs := [] }

/-- `sampleEntry` with change tracking enabled and a one-key stored
snapshot. -/
def trackingEntry : ConfigSettings :=
  { sampleEntry with enableChangeTracking := true,
                     configMAP := [("x", Value.vInt 1)] }

/-- A one-entry registry holding `trackingEntry` under the name "app". -/
def trackingState : ConfigListState :=
  { settings := [("app", trackingEntry)], changeLogs := [] }

/-! ### Lemmas about the structural differ -/

theorem oldKeyRecord_fieldName (configName : String) (now : Nat)
    (newMap : List (String × Value)) (kv : String × Value) (r : ConfigChangeLog)
    (h : oldKeyRecord configName now newMap kv = some r) : r.fieldName = kv.1 := by
  rcases hg : alistGet newMap kv.1 with _ | nv
  · simp only [oldKeyRecord, hg] at h
    cases h
    rfl
  · simp only [oldKeyRecord, hg] at h
    by_cases hb : Value.beq kv.2 nv = true
    · simp [hb] at h
    · rw [if_neg hb] at h
      cases h
      rfl

theorem newKeyRecord_fieldName (configName : String) (now : Nat)
    (oldMap : List (String × Value)) (kv : String × Value) (r : ConfigChangeLog)
    (h : newKeyRecord configName now oldMap kv = some r) : r.fieldName = kv.1 := by
  rcases hg : alistGet oldMap kv.1 with _ | ov
  · simp only [newKeyRecord, hg] at h
    cases h
    rfl
  · simp only [newKeyRecord, hg] at h
    exact Option.noConfusion h

/-- Records produced by a key-indexed pass carry the key of the entry that
produced them, so a pass over a list without the key contributes nothing to
the filter at that key. -/
theorem filterMap_filter_key_nil
    (f : String × Value → Option ConfigChangeLog)
    (hf : ∀ kv r, f kv = some r → r.fieldName = kv.1) :
    ∀ (l : List (String × Value)) (k : String), (∀ kv ∈ l, kv.1 ≠ k) →
      (l.filterMap f).filter (fun r => r.fieldName == k) = []
  | [], _, _ => rfl
  | kv :: rest, k, h => by
    have hrest := filterMap_filter_key_nil f hf rest k
      (fun x hx => h x (List.mem_cons_of_mem kv hx))
    have hkv : kv.1 ≠ k := h kv (List.mem_cons_self kv rest)
    rcases hfkv : f kv with _ | r
    · simp [List.filterMap_cons, hfkv, hrest]
    · have hr : r.fieldName = kv.1 := hf kv r hfkv
      simp [List.filterMap_cons, hfkv, List.filter_cons, hr, hkv, hrest]

/-- For a key-indexed pass over a duplicate-free mapping, the records
filtered to one key are exactly what the pass produces at that key's entry. -/
theorem filterMap_filter_key
    (f : String × Value → Option ConfigChangeLog)
    (hf : ∀ kv r, f kv = some r → r.fieldName = kv.1) :
    ∀ (l : List (String × Value)), (l.map Prod.fst).Nodup → ∀ (k : String),
      (l.filterMap f).filter (fun r => r.fieldName == k) =
        (match alistGet l k with
         | some v => (f (k, v)).toList
         | none => [])
  | [], _, _ => rfl
  | (k1, v1) :: rest, hnd, k => by
    have hnd' : (k1 :: rest.map Prod.fst).Nodup := by
      simp only [List.map_cons] at hnd; exact hnd
    by_cases hk : k1 = k
    · subst hk
      have hnotin : ∀ kv ∈ rest, kv.1 ≠ k1 := by
        intro kv hkv he
        exact (List.nodup_cons.mp hnd').1 (he ▸ List.mem_map_of_mem Prod.fst hkv)
      have hrest := filterMap_filter_key_nil f hf rest k1 hnotin
      rcases hfv : f (k1, v1) with _ | r
      · simp [List.filterMap_cons, hfv, alistGet, hrest]
      · have hr : r.fieldName = k1 := hf _ _ hfv
        simp [List.filterMap_cons, hfv, alistGet, List.filter_cons, hr, hrest]
    · have hrest := filterMap_filter_key f hf rest (List.nodup_cons.mp hnd').2 k
      rcases hfv : f (k1, v1) with _ | r
      · simp [List.filterMap_cons, hfv, alistGet, hk, hrest]
      · have hr : r.fieldName = k1 := hf _ _ hfv
        simp [List.filterMap_cons, hfv, alistGet, hk, List.filter_cons, hr, hrest]

/-- C2: for duplicate-free mappings, `compareFields` emits, per key, exactly
one changed record when the key is in both mappings with not-deeply-equal
values, exactly one removal record when the key is only in the old mapping,
exactly one addition record when it is only in the new mapping, and no record
when the key's values are deeply equal. -/
theorem compareFields_per_key
    (configName configFullName : String) (oldMap newMap : List (String × Value))
    (now : Nat) (recs : List ConfigChangeLog)
    (hrecs : compareFields configName configFullName (.vMap oldMap) (.vMap newMap)
      now [] = .ok recs)
    (hold : (oldMap.map Prod.fst).Nodup) (hnew : (newMap.map Prod.fst).Nodup)
    (k : String) :
    (∀ ov nv, alistGet oldMap k = some ov → alistGet newMap k = some nv →
       Value.beq ov nv = false →
       recs.filter (fun r => r.fieldName == k) =
         [{ configName := configName, fieldName := k, oldValue := ov,
            newValue := nv, timestamp := now }])
    ∧ (∀ ov nv, alistGet oldMap k = some ov → alistGet newMap k = some nv →
       Value.beq ov nv = true →
       recs.filter (fun r => r.fieldName == k) = [])
    ∧ (∀ ov, alistGet oldMap k = some ov → alistGet newMap k = none →
       recs.filter (fun r => r.fieldName == k) =
         [{ configName := configName, fieldName := k, oldValue := ov,
            newValue := Value.vNull, timestamp := now }])
    ∧ (∀ nv, alistGet oldMap k = none → alistGet newMap k = some nv →
       recs.filter (fun r => r.fieldName == k) =
         [{ configName := configName, fieldName := k, oldValue := Value.vNull,
            newValue := nv, timestamp := now }])
    ∧ (alistGet oldMap k = none → alistGet newMap k = none →
       recs.filter (fun r => r.fieldName == k) = []) := by
  have hrecs2 : recs = oldMap.filterMap (oldKeyRecord configName now newMap)
      ++ newMap.filterMap (newKeyRecord configName now oldMap) := by
    simp only [compareFields, List.nil_append, Except.ok.injEq] at hrecs
    exact hrecs.symm
  have h1 := filterMap_filter_key (oldKeyRecord configName now newMap)
    (oldKeyRecord_fieldName configName now newMap) oldMap hold k
  have h2 := filterMap_filter_key (newKeyRecord configName now oldMap)
    (newKeyRecord_fieldName configName now oldMap) newMap hnew k
  refine ⟨?_, ?_, ?_, ?_, ?_⟩
  · intro ov nv ho hn hne
    rw [hrecs2, List.filter_append, h1, h2, ho, hn]
    simp [oldKeyRecord, newKeyRecord, ho, hn, hne]
  · intro ov nv ho hn heq
    rw [hrecs2, List.filter_append, h1, h2, ho, hn]
    simp [oldKeyRecord, newKeyRecord, ho, hn, heq]
  · intro ov ho hn
    rw [hrecs2, List.filter_append, h1, h2, ho, hn]
    simp [oldKeyRecord, newKeyRecord, ho, hn]
  · intro nv ho hn
    rw [hrecs2, List.filter_append, h1, h2, ho, hn]
    simp [oldKeyRecord, newKeyRecord, ho, hn]
  · intro ho hn
    rw [hrecs2, List.filter_append, h1, h2, ho, hn]
    simp

/-- C2 witness: the spec's concrete example.  For old = (a 1, b 2) and
new = (a 1, b 3, c 4), the diff is exactly the two records (b changed 2 to 3,
c added null to 4), and the per-key theorem instantiates at keys b, c, a. -/
theorem compareFields_per_key_example :
    compareFields "cfg" "cfg.json"
        (.vMap [("a", Value.vInt 1), ("b", Value.vInt 2)])
        (.vMap [("a", Value.vInt 1), ("b", Value.vInt 3), ("c", Value.vInt 4)])
        7 [] =
      .ok [{ configName := "cfg", fieldName := "b", oldValue := Value.vInt 2,
             newValue := Value.vInt 3, timestamp := 7 },
           { configName := "cfg", fieldName := "c", oldValue := Value.vNull,
             newValue := Value.vInt 4, timestamp := 7 }]
    ∧ (([{ configName := "cfg", fieldName := "b", oldValue := Value.vInt 2,
           newValue := Value.vInt 3, timestamp := 7 },
         { configName := "cfg", fieldName := "c", oldValue := Value.vNull,
           newValue := Value.vInt 4, timestamp := 7 }] : List ConfigChangeLog).filter
          (fun r => r.fieldName == "b") =
        [{ configName := "cfg", fieldName := "b", oldValue := Value.vInt 2,
           newValue := Value.vInt 3, timestamp := 7 }])
    ∧ (([{ configName := "cfg", fieldName := "b", oldValue := Value.vInt 2,
           newValue := Value.vInt 3, timestamp := 7 },
         { configName := "cfg", fieldName := "c", oldValue := Value.vNull,
           newValue := Value.vInt 4, timestamp := 7 }] : List ConfigChangeLog).filter
          (fun r => r.fieldName == "a") = []) := by
  refine ⟨rfl, ?_, ?_⟩
  · exact (compareFields_per_key "cfg" "cfg.json"
      [("a", Value.vInt 1), ("b", Value.vInt 2)]
      [("a", Value.vInt 1), ("b", Value.vInt 3), ("c", Value.vInt 4)] 7 _
      rfl (by decide) (by decide) "b").1 (Value.vInt 2) (Value.vInt 3) rfl rfl rfl
  · exact (compareFields_per_key "cfg" "cfg.json"
      [("a", Value.vInt 1), ("b", Value.vInt 2)]
      [("a", Value.vInt 1), ("b", Value.vInt 3), ("c", Value.vInt 4)] 7 _
      rfl (by decide) (by decide) "a").2.1 (Value.vInt 1) (Value.vInt 1) rfl rfl rfl

/-- C9: diffing a mapping against itself yields no records: every key of the
first pass finds its own deeply-equal value and every key of the second pass
is present in the old mapping. -/
theorem compareFields_self_diff_empty
    (configName configFullName : String) (m : List (String × Value)) (now : Nat)
    (hnd : (m.map Prod.fst).Nodup) :
    compareFields configName configFullName (.vMap m) (.vMap m) now [] = .ok [] := by
  have h1 : m.filterMap (oldKeyRecord configName now m) = [] := by
    rw [List.filterMap_eq_nil_iff]
    intro kv hkv
    simp [oldKeyRecord, alistGet_of_mem m hnd kv hkv, Value.beq_refl kv.2]
  have h2 : m.filterMap (newKeyRecord configName now m) = [] := by
    rw [List.filterMap_eq_nil_iff]
    intro kv hkv
    simp [newKeyRecord, alistGet_of_mem m hnd kv hkv]
  simp [compareFields, h1, h2]

/-- C9 witness: the self-diff of a concrete two-key mapping is empty. -/
theorem compareFields_self_diff_empty_app :
    compareFields "app" "app.yaml"
        (.vMap [("host", Value.vStr "db"), ("port", Value.vInt 5432)])
        (.vMap [("host", Value.vStr "db"), ("port", Value.vInt 5432)]) 3 [] =
      .ok [] :=
  compareFields_self_diff_empty "app" "app.yaml"
    [("host", Value.vStr "db"), ("port", Value.vInt 5432)] 3 (by decide)

/-! ### Fingerprint purity -/

/-- C8: `calculateFileHash` is a pure function of the file's byte content:
any two invocations — different file systems, different paths, hence
different entries and times — that read byte-identical content return the
same hex digest, namely the hex-encoded MD5 of that content. -/
theorem calculateFileHash_pure_of_content
    (readFile1 readFile2 : String → Except String (List Nat))
    (p1 p2 : String) (content : List Nat)
    (h1 : readFile1 p1 = .ok content) (h2 : readFile2 p2 = .ok content) :
    calculateFileHash readFile1 p1 = calculateFileHash readFile2 p2
    ∧ calculateFileHash readFile1 p1 = .ok (hexEncodeToString (md5 content)) := by
  unfold calculateFileHash
  rw [h1, h2]
  exact ⟨rfl, rfl⟩

/-- C8 witness: two distinct file systems holding the same two bytes at
different paths fingerprint identically. -/
theorem calculateFileHash_pure_of_content_app :
    calculateFileHash (fun _ => .ok [104, 105]) "/etc/app.json"
      = calculateFileHash (fun p => if p = "/tmp/b.yaml" then .ok [104, 105]
          else .error "missing") "/tmp/b.yaml"
    ∧ calculateFileHash (fun _ => .ok [104, 105]) "/etc/app.json"
      = .ok (hexEncodeToString (md5 [104, 105])) :=
  calculateFileHash_pure_of_content (fun _ => .ok [104, 105])
    (fun p => if p = "/tmp/b.yaml" then .ok [104, 105] else .error "missing")
    "/etc/app.json" "/tmp/b.yaml" [104, 105] rfl (by simp)

/-! ### Monitor shutdown (C5) -/

/-- C5 counterexample: an entry registered through `AddConfigList` but never
started has a nil `cancel` function, so `StopChangeMonitoring` panics
instead of being a no-op.  (The file-system oracle returns one byte so that
registration itself succeeds.) -/
theorem stopChangeMonitoring_never_started_panics :
    (ConfigList.StopChangeMonitoring
      (ConfigList.AddConfigList (fun _ => .ok [42]) (fun _ _ => .ok [])
        { settings := [], changeLogs := [] } "app" "/etc" ".json" Value.vNull).1
      "app").2 = Outcome.panicked
    ∧ (alistGet
        (ConfigList.AddConfigList (fun _ => .ok [42]) (fun _ _ => .ok [])
          { settings := [], changeLogs := [] } "app" "/etc" ".json" Value.vNull).1.settings
        "app").isSome = true
    ∧ (ConfigList.AddConfigList (fun _ => .ok [42]) (fun _ _ => .ok [])
        { settings := [], changeLogs := [] } "app" "/etc" ".json" Value.vNull).2 = none := by
  refine ⟨rfl, rfl, rfl⟩

/-- C5 amended: `StopChangeMonitoring` is a no-op on an unknown name, and on
an entry whose monitor has been started (non-nil cancel) it returns without
error or panic, leaves the cancel handle in place, and a repeated call again
returns without error or panic — but it is not panic-free on a registered,
never-started entry (see the counterexample). -/
theorem stopChangeMonitoring_noop_and_idempotent
    (st : ConfigListState) (configName : String) :
    (alistGet st.settings configName = none →
      ConfigList.StopChangeMonitoring st configName = (st, .ret none))
    ∧ (∀ s, alistGet st.settings configName = some s → s.cancel = some () →
      (ConfigList.StopChangeMonitoring st configName).2 = .ret none
      ∧ (ConfigList.StopChangeMonitoring
          (ConfigList.StopChangeMonitoring st configName).1 configName).2 = .ret none) := by
  constructor
  · intro h
    simp [ConfigList.StopChangeMonitoring, h]
  · intro s hs hc
    constructor
    · simp [ConfigList.StopChangeMonitoring, hs, hc]
    · simp only [ConfigList.StopChangeMonitoring, hs, hc]
      rw [alistGet_set_self]

/-- C5 witness: a concrete one-entry registry with a started monitor:
stopping twice returns normally both times, and stopping an unregistered
name is a no-op. -/
theorem stopChangeMonitoring_noop_and_idempotent_app :
    (ConfigList.StopChangeMonitoring
      { settings := [("app",
          { configName := "app", configPath := "/etc", configFullPath := "/etc/app.json",
            configType := ".json", Reader := some .json, checkSec := 1, repeatSec := 10,
            lastConfigHash := "h", configMAP := [], config := Value.vNull,
            cancel := some (), enableChangeValidation := true,
            enableChangeTracking := false })],
        changeLogs := [] } "app").2 = Outcome.ret none
    ∧ ConfigList.StopChangeMonitoring
        { settings := [], changeLogs := [] } "ghost"
        = ({ settings := [], changeLogs := [] }, Outcome.ret none) := by
  constructor
  · exact ((stopChangeMonitoring_noop_and_idempotent
      { settings := [("app",
          { configName := "app", configPath := "/etc", configFullPath := "/etc/app.json",
            configType := ".json", Reader := some .json, checkSec := 1, repeatSec := 10,
            lastConfigHash := "h", configMAP := [], config := Value.vNull,
            cancel := some (), enableChangeValidation := true,
            enableChangeTracking := false })],
        changeLogs := [] } "app").2 _ rfl rfl).1
  · exact (stopChangeMonitoring_noop_and_idempotent
      { settings := [], changeLogs := [] } "ghost").1 rfl

/-! ### Registration (C6) -/

/-- C6 counterexample: with a fresh name, the unrecognized tag ".txt" and a
readable file, `AddConfig` returns nil — `defineHash` discards the
`convertToMap` failure — so an unknown format tag does not by itself fail
registration; the entry is left behind with no reader. -/
theorem addConfig_unknown_tag_readable_ok :
    (ConfigManager.AddConfig (fun _ => .ok [42]) (fun _ _ => .ok [])
      { configList := { settings := [], changeLogs := [] }, configs := [] }
      "app" "/etc" ".txt" Value.vNull).2 = none
    ∧ checkReader ".txt" = none
    ∧ (alistGet
        (ConfigManager.AddConfig (fun _ => .ok [42]) (fun _ _ => .ok [])
          { configList := { settings := [], changeLogs := [] }, configs := [] }
          "app" "/etc" ".txt" Value.vNull).1.configList.settings "app").map
        (fun s => s.Reader) = some none := by
  refine ⟨rfl, rfl, rfl⟩

/-- C6 amended: `AddConfig` fails when the name is already registered; an
unrecognized format tag alone does not make it fail — when the file at the
resolved path is readable the call returns nil and leaves the entry with no
reader, because `defineHash` discards the `convertToMap` error. -/
theorem addConfig_duplicate_fails_unknown_tag_ok
    (readFile : String → Except String (List Nat))
    (parse : String → ReaderKind → Except String (List (String × Value)))
    (cm : ConfigManager) (configName configPath configType : String) (v : Value)
    (bs : List Nat) :
    ((alistGet cm.configs configName).isSome = true →
      (ConfigManager.AddConfig readFile parse cm
        configName configPath configType v).2.isSome = true)
    ∧ (alistGet cm.configs configName = none →
       checkReader configType = none →
       readFile (joinPath configPath (configName ++ configType)) = .ok bs →
       (ConfigManager.AddConfig readFile parse cm
          configName configPath configType v).2 = none
       ∧ (alistGet (ConfigManager.AddConfig readFile parse cm
            configName configPath configType v).1.configList.settings
            configName).map (fun s => s.Reader) = some none) := by
  constructor
  · intro h
    rcases hg : alistGet cm.configs configName with _ | w
    · rw [hg] at h
      cases h
    · simp [ConfigManager.AddConfig, hg]
  · intro hfresh htag hread
    constructor
    · simp [ConfigManager.AddConfig, ConfigList.AddConfigList,
        ConfigSettings.defineHash, ConfigSettings.convertToMap,
        calculateFileHash, hfresh, htag, hread]
    · simp [ConfigManager.AddConfig, ConfigList.AddConfigList,
        ConfigSettings.defineHash, ConfigSettings.convertToMap,
        calculateFileHash, hfresh, htag, hread, alistGet_set_self]

/-- C6 witness: registering an already-registered name fails, and a fresh
name with the unknown tag ".txt" over a readable file succeeds. -/
theorem addConfig_duplicate_fails_unknown_tag_ok_app :
    (ConfigManager.AddConfig (fun _ => .ok [42]) (fun _ _ => .ok [])
      { configList := { settings := [], changeLogs := [] },
        configs := [("app", Value.vNull)] } "app" "/etc" ".json" Value.vNull).2.isSome
      = true
    ∧ (ConfigManager.AddConfig (fun _ => .ok [42]) (fun _ _ => .ok [])
        { configList := { settings := [], changeLogs := [] }, configs := [] }
        "web" "/etc" ".txt" Value.vNull).2 = none := by
  refine ⟨(addConfig_duplicate_fails_unknown_tag_ok (fun _ => .ok [42])
      (fun _ _ => .ok [])
      { configList := { settings := [], changeLogs := [] },
        configs := [("app", Value.vNull)] } "app" "/etc" ".json" Value.vNull [42]).1 rfl,
    ((addConfig_duplicate_fails_unknown_tag_ok (fun _ => .ok [42]) (fun _ _ => .ok [])
      { configList := { settings := [], changeLogs := [] }, configs := [] }
      "web" "/etc" ".txt" Value.vNull [42]).2 rfl rfl rfl).1⟩

/-! ### Change log (C7) -/

/-- C7 counterexample: a record logged for "a" is returned by
`GetLogChanges`, but registering a second configuration "b" through
`AddConfigList` resets the whole change-log map, after which the log for "a"
is empty — retrieval does not return the accumulated log across an
interleaved registration. -/
theorem addConfigList_resets_change_log :
    ConfigList.GetLogChanges
      (ConfigList.logChanges
        (ConfigList.AddConfigList (fun _ => .ok [42]) (fun _ _ => .ok [])
          { settings := [], changeLogs := [] } "a" "/cfg" ".json" Value.vNull).1
        "a"
        [{ configName := "a", fieldName := "x", oldValue := Value.vInt 1,
           newValue := Value.vInt 2, timestamp := 5 }]).1
      "a"
      = [{ configName := "a", fieldName := "x", oldValue := Value.vInt 1,
           newValue := Value.vInt 2, timestamp := 5 }]
    ∧ ConfigList.GetLogChanges
        (ConfigList.AddConfigList (fun _ => .ok [42]) (fun _ _ => .ok [])
          (ConfigList.logChanges
            (ConfigList.AddConfigList (fun _ => .ok [42]) (fun _ _ => .ok [])
              { settings := [], changeLogs := [] } "a" "/cfg" ".json" Value.vNull).1
            "a"
            [{ configName := "a", fieldName := "x", oldValue := Value.vInt 1,
               newValue := Value.vInt 2, timestamp := 5 }]).1
          "b" "/cfg" ".json" Value.vNull).1
        "a"
      = [] := by
  refine ⟨rfl, rfl⟩

/-- C7 amended: between registrations the change log is append-only and
fully retrieved — `logChanges` extends the stored log for its name in order
and leaves every other name's log unchanged — but every `AddConfigList` call
replaces the whole change-log map with a fresh empty one, discarding all
previously accumulated records for every name. -/
theorem logChanges_append_and_add_resets
    (st : ConfigListState) (configName : String) (changes : List ConfigChangeLog) :
    (ConfigList.GetLogChanges (ConfigList.logChanges st configName changes).1 configName
      = ConfigList.GetLogChanges st configName ++ changes)
    ∧ (∀ n2, configName ≠ n2 →
        ConfigList.GetLogChanges (ConfigList.logChanges st configName changes).1 n2
          = ConfigList.GetLogChanges st n2)
    ∧ (∀ (readFile : String → Except String (List Nat))
         (parse : String → ReaderKind → Except String (List (String × Value)))
         (nm p t : String) (v : Value),
        ((ConfigList.AddConfigList readFile parse st nm p t v).1).changeLogs = []) := by
  refine ⟨?_, ?_, ?_⟩
  · simp [ConfigList.logChanges, ConfigList.GetLogChanges, alistGet_set_self]
  · intro n2 hne
    simp [ConfigList.logChanges, ConfigList.GetLogChanges,
      alistGet_set_ne st.changeLogs configName n2 _ hne]
  · intro readFile parse nm p t v
    simp only [ConfigList.AddConfigList]
    split <;> rfl

/-- C7 witness: the theorem instantiated at a one-record log: the appended
record is retrieved, an unrelated name's log is untouched, and a concrete
registration resets the log map. -/
theorem logChanges_append_and_add_resets_app :
    ConfigList.GetLogChanges
      (ConfigList.logChanges { settings := [], changeLogs := [] } "a"
        [{ configName := "a", fieldName := "x", oldValue := Value.vInt 1,
           newValue := Value.vInt 2, timestamp := 5 }]).1 "a"
      = ConfigList.GetLogChanges { settings := [], changeLogs := [] } "a"
        ++ [{ configName := "a", fieldName := "x", oldValue := Value.vInt 1,
              newValue := Value.vInt 2, timestamp := 5 }]
    ∧ ConfigList.GetLogChanges
        (ConfigList.logChanges { settings := [], changeLogs := [] } "a"
          [{ configName := "a", fieldName := "x", oldValue := Value.vInt 1,
             newValue := Value.vInt 2, timestamp := 5 }]).1 "b"
      = ConfigList.GetLogChanges { settings := [], changeLogs := [] } "b"
    ∧ ((ConfigList.AddConfigList (fun _ => .ok [42]) (fun _ _ => .ok [])
        { settings := [], changeLogs := [] } "a" "/cfg" ".json" Value.vNull).1).changeLogs
      = [] := by
  refine ⟨(logChanges_append_and_add_resets { settings := [], changeLogs := [] } "a"
      [{ configName := "a", fieldName := "x", oldValue := Value.vInt 1,
         newValue := Value.vInt 2, timestamp := 5 }]).1,
    (logChanges_append_and_add_resets { settings := [], changeLogs := [] } "a"
      [{ configName := "a", fieldName := "x", oldValue := Value.vInt 1,
         newValue := Value.vInt 2, timestamp := 5 }]).2.1 "b" (by decide),
    (logChanges_append_and_add_resets { settings := [], changeLogs := [] } "a"
      [{ configName := "a", fieldName := "x", oldValue := Value.vInt 1,
         newValue := Value.vInt 2, timestamp := 5 }]).2.2
      (fun _ => .ok [42]) (fun _ _ => .ok []) "a" "/cfg" ".json" Value.vNull⟩

/-! ### Update path (C3) -/

/-- C3: for a registered name with a reader set and a previously started
monitor (a non-nil cancel handle, so the internal stop does not panic),
`UpdateConfig` returns the writer's error when the write fails, the wrapped
reload error when the write succeeds but the reload fails, and nil exactly
when both the write and the reload succeed. -/
theorem updateConfig_error_propagation
    (writeRes : Option String) (readRes : Except String Value)
    (st : ConfigListState) (configName : String) (v : Value)
    (settings : ConfigSettings) (r : ReaderKind)
    (hs : alistGet st.settings configName = some settings)
    (hr : settings.Reader = some r)
    (hc : settings.cancel = some ()) :
    (∀ e, writeRes = some e →
      (ConfigList.UpdateConfig writeRes readRes st configName v).2 =
        .ret (some ("update config " ++ configName ++ ": " ++ e)))
    ∧ (∀ e, writeRes = none → readRes = .error e →
      (ConfigList.UpdateConfig writeRes readRes st configName v).2 =
        .ret (some ("reload config " ++ configName ++ ": "
          ++ ("load config " ++ configName ++ ": error while read config: " ++ e))))
    ∧ (∀ nv, writeRes = none → readRes = .ok nv →
      (ConfigList.UpdateConfig writeRes readRes st configName v).2 = .ret none) := by
  have hstop : ConfigList.StopChangeMonitoring st configName =
      ({ st with settings := (alistSet st.settings configName
          { settings with enableChangeValidation := false }) }, .ret none) := by
    simp [ConfigList.StopChangeMonitoring, hs, hc]
  refine ⟨?_, ?_, ?_⟩
  · intro e hw
    simp [ConfigList.UpdateConfig, hs, hr, hstop, hw]
  · intro e hw hread
    simp [ConfigList.UpdateConfig, hs, hr, hstop, hw,
      ConfigList.LoadConfig, alistGet_set_self, hread]
  · intro nv hw hread
    simp [ConfigList.UpdateConfig, hs, hr, hstop, hw,
      ConfigList.LoadConfig, alistGet_set_self, hread]

/-- C3 witness: the concrete one-entry registry `sampleState` with a started
monitor: a failed write surfaces the writer's error, a failed reload
surfaces the wrapped read error, and a successful write plus reload returns
nil. -/
theorem updateConfig_error_propagation_app :
    (ConfigList.UpdateConfig (some "disk full") (.ok Value.vNull)
        sampleState "app" Value.vNull).2
      = .ret (some ("update config " ++ "app" ++ ": " ++ "disk full"))
    ∧ (ConfigList.UpdateConfig none (.error "bad syntax")
        sampleState "app" Value.vNull).2
      = .ret (some ("reload config " ++ "app" ++ ": "
          ++ ("load config " ++ "app" ++ ": error while read config: " ++ "bad syntax")))
    ∧ (ConfigList.UpdateConfig none (.ok (Value.vInt 3))
        sampleState "app" Value.vNull).2
      = .ret none := by
  refine ⟨(updateConfig_error_propagation (some "disk full") (.ok Value.vNull)
      sampleState "app" Value.vNull sampleEntry ReaderKind.json rfl rfl rfl).1
      "disk full" rfl,
    (updateConfig_error_propagation none (.error "bad syntax")
      sampleState "app" Value.vNull sampleEntry ReaderKind.json rfl rfl rfl).2.1
      "bad syntax" rfl rfl,
    (updateConfig_error_propagation none (.ok (Value.vInt 3))
      sampleState "app" Value.vNull sampleEntry ReaderKind.json rfl rfl rfl).2.2
      (Value.vInt 3) rfl rfl⟩
/-! ### Poll tick: fingerprint/snapshot atomicity (C1), notifications (C4),
and the conversion-error path (C10) -/

/-- The first diff pass against an empty (nil) new mapping emits one removal
record per stored key. -/
theorem filterMap_oldKeyRecord_empty (cn : String) (now : Nat) :
    ∀ l : List (String × Value),
      l.filterMap (oldKeyRecord cn now []) =
        l.map (fun kv => { configName := cn, fieldName := kv.1, oldValue := kv.2,
                           newValue := Value.vNull, timestamp := now })
  | [] => rfl
  | kv :: rest => by
    simp [List.filterMap_cons, oldKeyRecord, alistGet,
      filterMap_oldKeyRecord_empty cn now rest]

/-- C1 counterexample (the `ConfigManager.checkConfigChanges` variant in
changes.go): on a successful changed tick the stored snapshot is replaced
with the newly converted mapping while `lastConfigHash` keeps its old value
"h" even though the tick's fingerprint is "h2" — the snapshot is updated
without the fingerprint. -/
theorem managerCheck_stale_hash_new_snapshot :
    (alistGet (ConfigManager.checkConfigChanges
        { hashResult := .ok "h2", readResult := .ok (Value.vInt 3),
          convertResult := .ok [("x", Value.vInt 2)], selectChanged := true, now := 9 }
        trackingState "app").1.settings "app").map
      (fun e => (e.lastConfigHash, e.configMAP))
      = some ("h", [("x", Value.vInt 2)])
    ∧ trackingEntry.lastConfigHash = "h"
    ∧ trackingEntry.configMAP = [("x", Value.vInt 1)] := by
  refine ⟨rfl, rfl, rfl⟩

/-- C1 amended (the `ConfigList.checkConfigChanges` variant of part 010):
on a changed tick, the stored fingerprint and untyped snapshot are replaced
together from the same read pass — after a successful reload both hold this
tick's values, and on a failed reload or failed conversion neither is
touched — so neither is ever updated without the other in this variant. -/
theorem listCheck_hash_snapshot_together
    (env : TickEnv) (st : ConfigListState) (configName : String)
    (s : ConfigSettings) (h : String)
    (hs : alistGet st.settings configName = some s)
    (hval : s.enableChangeValidation = true)
    (hhash : env.hashResult = .ok h)
    (hne : h ≠ s.lastConfigHash) :
    (∀ e, env.readResult = .error e →
      (ConfigList.checkConfigChanges env st configName).1 = st)
    ∧ (∀ nv m, env.readResult = .ok nv → s.enableChangeTracking = true →
        env.convertResult = .ok m →
        alistGet (ConfigList.checkConfigChanges env st configName).1.settings configName
          = some { s with config := nv, configMAP := m, lastConfigHash := h })
    ∧ (∀ nv, env.readResult = .ok nv → s.enableChangeTracking = false →
        alistGet (ConfigList.checkConfigChanges env st configName).1.settings configName
          = some { s with config := nv, configMAP := [], lastConfigHash := h })
    ∧ (∀ nv e, env.readResult = .ok nv → s.enableChangeTracking = true →
        env.convertResult = .error e →
        (ConfigList.checkConfigChanges env st configName).1.settings = st.settings) := by
  refine ⟨?_, ?_, ?_, ?_⟩
  · intro e hread
    simp [ConfigList.checkConfigChanges, hs, hval, hhash, hne, hread]
  · intro nv m hread htr hconv
    simp [ConfigList.checkConfigChanges, hs, hval, hhash, hne, hread, htr, hconv,
      ConfigList.logChanges, alistGet_set_self]
  · intro nv hread htr
    simp [ConfigList.checkConfigChanges, hs, hval, hhash, hne, hread, htr,
      alistGet_set_self]
  · intro nv e hread htr hconv
    simp [ConfigList.checkConfigChanges, hs, hval, hhash, hne, hread, htr, hconv,
      ConfigList.logChanges]

/-- C1 witness: a concrete changed tick (tracking off) on `sampleState`
replaces target, snapshot and fingerprint together. -/
theorem listCheck_hash_snapshot_together_app :
    alistGet (ConfigList.checkConfigChanges
        { hashResult := .ok "h2", readResult := .ok (Value.vInt 3),
          convertResult := .ok [], selectChanged := false, now := 0 }
        sampleState "app").1.settings "app"
      = some { sampleEntry with
                 config := Value.vInt 3, configMAP := [], lastConfigHash := "h2" } :=
  (listCheck_hash_snapshot_together
    { hashResult := .ok "h2", readResult := .ok (Value.vInt 3),
      convertResult := .ok [], selectChanged := false, now := 0 }
    sampleState "app" sampleEntry "h2" rfl rfl rfl (by decide)).2.2.1
    (Value.vInt 3) rfl rfl

/-- C4 counterexample: on a changed tick with tracking enabled, the monitor
does not emit exactly one notification: `logChanges` signals the tracking
channel and the final select then also sends on the changed channel — two
sends, and on both channels. -/
theorem listCheck_two_sends_example :
    (ConfigList.checkConfigChanges
        { hashResult := .ok "h2", readResult := .ok (Value.vInt 3),
          convertResult := .ok [("x", Value.vInt 2)], selectChanged := true, now := 9 }
        trackingState "app").2.1
      = [Emission.tracking, Emission.changed]
    ∧ ((ConfigList.checkConfigChanges
        { hashResult := .ok "h2", readResult := .ok (Value.vInt 3),
          convertResult := .ok [("x", Value.vInt 2)], selectChanged := true, now := 9 }
        trackingState "app").2.1).length = 2 := by
  refine ⟨rfl, rfl⟩

/-- C4 amended: on every successful changed tick with tracking enabled the
monitor performs exactly two channel sends: one on the tracking channel from
`logChanges`, and then exactly one more from the final select, on either the
changed or the tracking channel depending on which receiver wins the race —
the select contributes one send, never both. -/
theorem listCheck_tracking_select_emissions
    (env : TickEnv) (st : ConfigListState) (configName : String)
    (s : ConfigSettings) (h : String) (nv : Value) (m : List (String × Value))
    (hs : alistGet st.settings configName = some s)
    (hval : s.enableChangeValidation = true)
    (htr : s.enableChangeTracking = true)
    (hhash : env.hashResult = .ok h)
    (hne : h ≠ s.lastConfigHash)
    (hread : env.readResult = .ok nv)
    (hconv : env.convertResult = .ok m) :
    (ConfigList.checkConfigChanges env st configName).2.1
      = [Emission.tracking,
         if env.selectChanged then Emission.changed else Emission.tracking]
    ∧ ((ConfigList.checkConfigChanges env st configName).2.1).length = 2 := by
  have he : (ConfigList.checkConfigChanges env st configName).2.1
      = [Emission.tracking,
         if env.selectChanged then Emission.changed else Emission.tracking] := by
    simp [ConfigList.checkConfigChanges, hs, hval, hhash, hne, hread, htr, hconv,
      ConfigList.logChanges]
  exact ⟨he, by rw [he]; rfl⟩

/-- C4 witness: the two-send shape instantiated on `trackingState` with the
select losing to the tracking receiver. -/
theorem listCheck_tracking_select_emissions_app :
    (ConfigList.checkConfigChanges
        { hashResult := .ok "h2", readResult := .ok (Value.vInt 3),
          convertResult := .ok [("x", Value.vInt 2)], selectChanged := false, now := 9 }
        trackingState "app").2.1
      = [Emission.tracking,
         if false then Emission.changed else Emission.tracking]
    ∧ ((ConfigList.checkConfigChanges
        { hashResult := .ok "h2", readResult := .ok (Value.vInt 3),
          convertResult := .ok [("x", Value.vInt 2)], selectChanged := false, now := 9 }
        trackingState "app").2.1).length = 2 :=
  listCheck_tracking_select_emissions
    { hashResult := .ok "h2", readResult := .ok (Value.vInt 3),
      convertResult := .ok [("x", Value.vInt 2)], selectChanged := false, now := 9 }
    trackingState "app" trackingEntry "h2" (Value.vInt 3) [("x", Value.vInt 2)]
    rfl rfl rfl rfl (by decide) rfl rfl

/-- C10: on a changed tick with tracking enabled whose conversion to an
untyped mapping fails, the tick first diffs the stored snapshot against the
nil new mapping — appending one removal record per stored key to the shared
change log and signalling the tracking channel — and only then returns the
error, leaving the settings (fingerprint, snapshot and typed target)
unchanged. -/
theorem listCheck_convert_error_logs_removals
    (env : TickEnv) (st : ConfigListState) (configName : String)
    (s : ConfigSettings) (h : String) (nv : Value) (e : String)
    (hs : alistGet st.settings configName = some s)
    (hval : s.enableChangeValidation = true)
    (htr : s.enableChangeTracking = true)
    (hhash : env.hashResult = .ok h)
    (hne : h ≠ s.lastConfigHash)
    (hread : env.readResult = .ok nv)
    (hconv : env.convertResult = .error e) :
    ConfigList.checkConfigChanges env st configName
      = ({ st with changeLogs := (alistSet st.changeLogs configName
            ((alistGet st.changeLogs configName).getD []
              ++ s.configMAP.map (fun kv =>
                { configName := configName, fieldName := kv.1, oldValue := kv.2,
                  newValue := Value.vNull, timestamp := env.now }))) },
         [Emission.tracking],
         .ret (some "monitoring: error v is not of type map[string]interface\x7b\x7d")) := by
  simp [ConfigList.checkConfigChanges, hs, hval, hhash, hne, hread, htr, hconv,
    ConfigList.logChanges, compareFields, filterMap_oldKeyRecord_empty]

/-- C10 witness: a concrete conversion-error tick on `trackingState`: the
error is returned, the settings are untouched, only the tracking channel is
signalled, and the log gains the removal record for the stored key x. -/
theorem listCheck_convert_error_logs_removals_app :
    (ConfigList.checkConfigChanges
        { hashResult := .ok "h2", readResult := .ok (Value.vInt 3),
          convertResult := .error "boom", selectChanged := true, now := 9 }
        trackingState "app").2.2
      = Outcome.ret (some "monitoring: error v is not of type map[string]interface\x7b\x7d")
    ∧ (ConfigList.checkConfigChanges
        { hashResult := .ok "h2", readResult := .ok (Value.vInt 3),
          convertResult := .error "boom", selectChanged := true, now := 9 }
        trackingState "app").1.settings = trackingState.settings
    ∧ (ConfigList.checkConfigChanges
        { hashResult := .ok "h2", readResult := .ok (Value.vInt 3),
          convertResult := .error "boom", selectChanged := true, now := 9 }
        trackingState "app").2.1 = [Emission.tracking]
    ∧ ConfigList.GetLogChanges
        (ConfigList.checkConfigChanges
          { hashResult := .ok "h2", readResult := .ok (Value.vInt 3),
            convertResult := .error "boom", selectChanged := true, now := 9 }
          trackingState "app").1 "app"
      = [{ configName := "app", fieldName := "x", oldValue := Value.vInt 1,
           newValue := Value.vNull, timestamp := 9 }] := by
  have h := listCheck_convert_error_logs_removals
    { hashResult := .ok "h2", readResult := .ok (Value.vInt 3),
      convertResult := .error "boom", selectChanged := true, now := 9 }
    trackingState "app" trackingEntry "h2" (Value.vInt 3) "boom"
    rfl rfl rfl rfl (by decide) rfl rfl
  rw [h]
  refine ⟨rfl, rfl, rfl, rfl⟩

end Mkconf
